import Mathlib

/-!
Shallow embedding of the browser-side document-upload interface
(`src/frontend/src/App.js`) and verification of its specification.

Modelling conventions:
- The component state (the four `useState` hooks) is the structure `AppState`.
- Network responses are external inputs, modelled by the inductive types
  `UploadOutcome` and `FetchOutcome`; the handlers become functions from the
  current state and the outcome to the next state.
- An event handler is embedded as a script of state updates (`UIAction.set`,
  one per `setX(...)` call in source order) interleaved with the points where
  the async function suspends on `await` (`UIAction.yieldPoint`).  React
  batches state updates issued synchronously inside a handler: the state
  variables observed by renders change only when the handler suspends or
  returns.  `applyScript` gives the final state; `committedStates` gives the
  sequence of states a render can observe (one at each suspension, one at
  handler return).
- JS numbers (confidence scores) are modelled as exact rationals; timestamps
  (`new Date(x)` differences) as integers.  String splitting and prefix tests
  are modelled character-exactly over `List Char`.
-/

/-- A Document record as delivered by the external service (spec section 3):
`id`, `filename`, `predicted_category`, `confidence_scores` (label/score
pairs, as produced by `Object.entries`), `upload_time`. -/
structure Document where
  id : Nat
  filename : String
  predicted_category : String
  confidence_scores : List (String × ℚ)
  upload_time : Int
deriving DecidableEq, Repr

/-- The component-local view state: the four `useState` hooks of `App`
(`message`, `documents`, `openDocumentId`, `isLoading`). -/
structure AppState where
  message : String
  documents : List Document
  openDocumentId : Option Nat
  isLoading : Bool
deriving DecidableEq, Repr

/-- The initial state: `useState('')`, `useState([])`, `useState(null)`,
`useState(false)`. -/
def initialState : AppState :=
  { message := "", documents := [], openDocumentId := none, isLoading := false }

/-- The URL the health-check effect fetches (App.js line 32):
`'http://8000/health'`, with the source comment
"Changed to 8000 since localhost is implied". -/
def healthCheckUrl : String := "http://8000/health"

/-- The URL `fetchDocuments` fetches (App.js line 13). -/
def documentsUrl : String := "http://localhost:8000/documents"

/-- The URL `handleFile` POSTs to (App.js line 64). -/
def uploadUrl : String := "http://localhost:8000/upload"

/-- The fixed base origin of the remote service named by the spec. -/
def fixedBaseOrigin : String := "http://localhost:8000"

/-- JS `s.startsWith(pre)`: character-wise prefix test. -/
def jsStartsWith (s pre : String) : Bool :=
  pre.toList.isPrefixOf s.toList

/-- JS `name.split('.')` over the character list: splits at every `'.'`,
always returning at least one (possibly empty) segment, exactly like
`String.prototype.split` with a one-character separator. -/
def splitOnDot : List Char → List (List Char)
  | [] => [[]]
  | c :: cs =>
    let r := splitOnDot cs
    if c = '.' then [] :: r
    else match r with
      | [] => [[c]]
      | s :: rest => (c :: s) :: rest

/-- App.js line 57: `'.' + file.name.split('.').pop()`.  `split('.')` never
returns an empty array, so `pop()` is its last element. -/
def fileExtension (name : String) : String :=
  "." ++ String.mk ((splitOnDot name.toList).getLastD [])

/-- App.js line 56: `const allowedExtensions = ['.txt', '.pdf', '.docx']`. -/
def allowedExtensions : List String := [".txt", ".pdf", ".docx"]

/-- The test at App.js line 59, `allowedExtensions.includes(fileExtension)`:
exactly when it is true does `handleFile` build the form data and issue the
POST to `/upload`. -/
def uploadRequestIssued (name : String) : Bool :=
  allowedExtensions.contains (fileExtension name)

/-- Outcome of the `/upload` request, as seen by `handleFile`:
- `success m f c`: `response.ok` with parsed body fields `message`,
  `filename`, `predicted_category`;
- `serverError dm st`: non-ok response with parsed body whose `message`
  field is `dm` (`none` when absent) and `response.statusText` `st`;
- `fetchFailure`: `fetch` itself threw (transport error);
- `jsonFailure`: `response.json()` threw (parse error). -/
inductive UploadOutcome where
  | success (m f c : String)
  | serverError (dataMessage : Option String) (statusText : String)
  | fetchFailure
  | jsonFailure
deriving DecidableEq, Repr

/-- JS `data.message || response.statusText`: `||` falls through on a
missing field and on the empty string (both falsy). -/
def jsOr (dataMessage : Option String) (statusText : String) : String :=
  match dataMessage with
  | some m => if m = "" then statusText else m
  | none => statusText

/-- The message `handleFile` sets for each upload outcome
(App.js lines 70, 73, 77). -/
def uploadMessage : UploadOutcome → String
  | UploadOutcome.success m f c =>
      "Success: " ++ m ++ " - " ++ f ++ ". Category: " ++ c
  | UploadOutcome.serverError dm st => "Error: " ++ jsOr dm st
  | UploadOutcome.fetchFailure => "Failed to upload file."
  | UploadOutcome.jsonFailure => "Failed to upload file."

/-- One step of an event handler: either a queued state update (`setX`
call) or a suspension point (`await`), where React commits queued updates. -/
inductive UIAction where
  | set (f : AppState → AppState)
  | yieldPoint

/-- `handleFile` (App.js lines 52-85) as a script, one `set` per source
`setX(...)` call in source order, one `yieldPoint` per `await` reached:
`setMessage('')`; `setIsLoading(true)`; extension check; if allowed,
`await fetch` (POST `/upload`), `await response.json()` unless the fetch
itself threw, then the outcome's message and `setIsLoading(false)` from the
`finally`; if rejected, the fixed rejection message and
`setIsLoading(false)`.  The `fetchDocuments()` call on success is
fire-and-forget and is modelled separately by `fetchDocuments`. -/
def handleFileScript (name : String) (o : UploadOutcome) : List UIAction :=
  UIAction.set (fun s => { s with message := "" }) ::
  UIAction.set (fun s => { s with isLoading := true }) ::
  if uploadRequestIssued name then
    UIAction.yieldPoint ::
    match o with
    | UploadOutcome.fetchFailure =>
        [UIAction.set (fun s => { s with message := uploadMessage UploadOutcome.fetchFailure }),
         UIAction.set (fun s => { s with isLoading := false })]
    | o =>
        UIAction.yieldPoint ::
        [UIAction.set (fun s => { s with message := uploadMessage o }),
         UIAction.set (fun s => { s with isLoading := false })]
  else
    [UIAction.set (fun s => { s with message := "Only .txt, .pdf, and .docx files are allowed." }),
     UIAction.set (fun s => { s with isLoading := false })]

/-- Run a script to its final state. -/
def applyScript (s : AppState) : List UIAction → AppState
  | [] => s
  | UIAction.set f :: rest => applyScript (f s) rest
  | UIAction.yieldPoint :: rest => applyScript s rest

/-- The states a render can observe while a script runs: one at each
suspension point and one when the handler returns (React batches the
updates issued between them). -/
def committedStates (s : AppState) : List UIAction → List AppState
  | [] => [s]
  | UIAction.set f :: rest => committedStates (f s) rest
  | UIAction.yieldPoint :: rest => s :: committedStates s rest

/-- The state after a `handleFile` invocation completes. -/
def handleFile (s : AppState) (name : String) (o : UploadOutcome) : AppState :=
  applyScript s (handleFileScript name o)

/-- The observable values of the loading flag during a `handleFile`
invocation. -/
def committedLoading (s : AppState) (name : String) (o : UploadOutcome) : List Bool :=
  (committedStates s (handleFileScript name o)).map AppState.isLoading

/-- App.js line 143: the alert's class is chosen by
`message.startsWith('Error')`. -/
def alertClassName (m : String) : String :=
  if jsStartsWith m "Error" then "alert alert-danger" else "alert alert-success"

/-- Outcome of the `/documents` request, as seen by `fetchDocuments`:
`ok docs` for a 2xx response parsed into Document records, `httpError st`
for a non-ok response (`response.statusText` `st`), `networkError` for a
thrown fetch or parse error (the `catch` branch). -/
inductive FetchOutcome where
  | ok (docs : List Document)
  | httpError (statusText : String)
  | networkError

/-- App.js line 16: `data.sort((a, b) => new Date(b.upload_time) - new Date(a.upload_time))`,
a stable sort putting larger timestamps first (`a` precedes `b` exactly when
the comparator is non-positive, i.e. `b.upload_time ≤ a.upload_time`). -/
def sortDocumentsDesc (l : List Document) : List Document :=
  l.mergeSort (fun a b => decide (b.upload_time ≤ a.upload_time))

/-- `fetchDocuments` (App.js lines 11-24): on an ok response the list is
replaced with the sorted data; the non-ok and catch branches only
`console.error` and leave the state untouched. -/
def fetchDocuments (s : AppState) (o : FetchOutcome) : AppState :=
  match o with
  | FetchOutcome.ok docs => { s with documents := sortDocumentsDesc docs }
  | FetchOutcome.httpError _ => s
  | FetchOutcome.networkError => s

/-- App.js lines 26-28: `setOpenDocumentId(openDocumentId === id ? null : id)`. -/
def toggleDocumentDetails (s : AppState) (id : Nat) : AppState :=
  { s with openDocumentId := if s.openDocumentId = some id then none else some id }

/-- App.js line 175: the details block of a card renders exactly when
`openDocumentId === doc.id`. -/
def documentDetailsShown (s : AppState) (docId : Nat) : Bool :=
  decide (s.openDocumentId = some docId)

/-- App.js line 180: `.sort(([, scoreA], [, scoreB]) => scoreB - scoreA)` on
`Object.entries(doc.confidence_scores)`, a stable sort putting larger scores
first. -/
def sortScoresDesc (l : List (String × ℚ)) : List (String × ℚ) :=
  l.mergeSort (fun a b => decide (b.2 ≤ a.2))

/-- JS `(x).toFixed(2)` on a score scaled to a percentage, modelled on exact
rationals: round half up to two decimal places. -/
def roundTo2 (x : ℚ) : ℚ := (round (x * 100) : ℤ) / 100

/-- App.js lines 179-192: the expanded card's confidence entries, in render
order, each as (label, bar width in percent, displayed percentage); both
numbers are `(score * 100).toFixed(2)`. -/
def renderConfidenceScores (d : Document) : List (String × ℚ × ℚ) :=
  (sortScoresDesc d.confidence_scores).map
    (fun p => (p.1, roundTo2 (p.2 * 100), roundTo2 (p.2 * 100)))

/-- Claim C1 counterexample: for the disallowed file `notes.exe`, `handleFile`
issues no upload request, but the message it sets is the fixed rejection
string, which does not start with "Error" — refuting the claim that the
rejection message starts with "Error". -/
theorem rejection_message_not_error_cex :
    uploadRequestIssued "notes.exe" = false ∧
    (handleFile initialState "notes.exe" UploadOutcome.fetchFailure).message =
      "Only .txt, .pdf, and .docx files are allowed." ∧
    jsStartsWith (handleFile initialState "notes.exe" UploadOutcome.fetchFailure).message
      "Error" = false := by
  decide

/-- Claim C1 (amended): for every file whose extension is outside the allowed
set, `handleFile` issues no POST to `/upload` and sets the message to the
fixed string "Only .txt, .pdf, and .docx files are allowed.", which does not
start with "Error". -/
theorem rejection_sets_fixed_message (s : AppState) (name : String) (o : UploadOutcome)
    (h : allowedExtensions.contains (fileExtension name) = false) :
    (handleFile s name o).message = "Only .txt, .pdf, and .docx files are allowed." ∧
    jsStartsWith (handleFile s name o).message "Error" = false ∧
    uploadRequestIssued name = false := by
  have h' : uploadRequestIssued name = false := h
  have hm : (handleFile s name o).message = "Only .txt, .pdf, and .docx files are allowed." := by
    simp [handleFile, handleFileScript, h', applyScript]
  exact ⟨hm, by rw [hm]; decide, h'⟩

/-- Witness for claim C1's amended theorem at the concrete file `draft.md`. -/
theorem rejection_sets_fixed_message_witness :
    allowedExtensions.contains (fileExtension "draft.md") = false ∧
    (handleFile initialState "draft.md" UploadOutcome.jsonFailure).message =
      "Only .txt, .pdf, and .docx files are allowed." :=
  ⟨by decide,
   (rejection_sets_fixed_message initialState "draft.md" UploadOutcome.jsonFailure (by decide)).1⟩

/-- Claim C2: the health-check URL is not on the fixed base origin
`http://localhost:8000` (it is `http://8000/health`, whose host part is
"8000"), while the documents and upload URLs are. -/
theorem healthCheck_url_mismatch :
    healthCheckUrl ≠ fixedBaseOrigin ++ "/health" ∧
    jsStartsWith healthCheckUrl fixedBaseOrigin = false ∧
    jsStartsWith documentsUrl fixedBaseOrigin = true ∧
    jsStartsWith uploadUrl fixedBaseOrigin = true := by
  decide

/-- Claim C3: for every 2xx `/upload` response with body fields `m`, `f`, `c`,
`handleFile` sets the message to exactly
`"Success: " ++ m ++ " - " ++ f ++ ". Category: " ++ c`. -/
theorem upload_success_message (s : AppState) (name m f c : String)
    (h : uploadRequestIssued name = true) :
    (handleFile s name (UploadOutcome.success m f c)).message =
      "Success: " ++ m ++ " - " ++ f ++ ". Category: " ++ c := by
  simp [handleFile, handleFileScript, h, applyScript, uploadMessage]

/-- Witness for claim C3 at the spec's example: uploading `report.pdf` with
response `{message: "ok", filename: "report.pdf", predicted_category: "Invoice"}`
displays `"Success: ok - report.pdf. Category: Invoice"`. -/
theorem upload_success_message_witness :
    uploadRequestIssued "report.pdf" = true ∧
    (handleFile initialState "report.pdf"
      (UploadOutcome.success "ok" "report.pdf" "Invoice")).message =
      "Success: ok - report.pdf. Category: Invoice" :=
  ⟨by decide,
   by
     rw [upload_success_message initialState "report.pdf" "ok" "report.pdf" "Invoice" (by decide)]
     decide⟩

/-- Claim C4: a successful `fetchDocuments` run replaces the document list by
exactly the fetched records sorted descending by `upload_time` (a permutation
of the fetched records, pairwise non-increasing in `upload_time`),
independently of the previous list contents. -/
theorem fetchDocuments_ok_replaces_sorted (s t : AppState) (docs : List Document) :
    ((fetchDocuments s (FetchOutcome.ok docs)).documents).Perm docs ∧
    List.Pairwise (fun a b : Document => b.upload_time ≤ a.upload_time)
      (fetchDocuments s (FetchOutcome.ok docs)).documents ∧
    (fetchDocuments s (FetchOutcome.ok docs)).documents =
      (fetchDocuments t (FetchOutcome.ok docs)).documents := by
  refine ⟨List.mergeSort_perm docs _, ?_, rfl⟩
  have h : List.Pairwise
      (fun a b : Document => (decide (b.upload_time ≤ a.upload_time)) = true)
      (docs.mergeSort (fun a b => decide (b.upload_time ≤ a.upload_time))) :=
    @List.sorted_mergeSort Document (fun a b => decide (b.upload_time ≤ a.upload_time))
      (fun a b c hab hbc =>
        decide_eq_true (le_trans (of_decide_eq_true hbc) (of_decide_eq_true hab)))
      (fun a b => by
        simp only [Bool.or_eq_true, decide_eq_true_eq]
        exact le_total b.upload_time a.upload_time)
      docs
  exact h.imp (fun hd => of_decide_eq_true hd)

/-- Claim C5: a failing `fetchDocuments` run (non-2xx response or thrown
fetch/parse error) leaves the whole state, in particular the document list
and the message, exactly as before. -/
theorem fetchDocuments_failure_preserves_state (s : AppState) (st : String) :
    fetchDocuments s (FetchOutcome.httpError st) = s ∧
    fetchDocuments s FetchOutcome.networkError = s :=
  ⟨rfl, rfl⟩

/-- Claim C6: toggling the currently-expanded id closes it; toggling a
different id expands exactly that id; toggling A then B leaves only B
expanded; and two distinct ids are never both shown expanded. -/
theorem toggleDocumentDetails_spec (s : AppState) (a b : Nat) (h : a ≠ b) :
    (s.openDocumentId = some a → (toggleDocumentDetails s a).openDocumentId = none) ∧
    (s.openDocumentId ≠ some a → (toggleDocumentDetails s a).openDocumentId = some a) ∧
    (toggleDocumentDetails (toggleDocumentDetails s a) b).openDocumentId = some b ∧
    ¬ (documentDetailsShown s a = true ∧ documentDetailsShown s b = true) := by
  refine ⟨?_, ?_, ?_, ?_⟩
  · intro hs; simp [toggleDocumentDetails, hs]
  · intro hs; simp [toggleDocumentDetails, hs]
  · by_cases hs : s.openDocumentId = some a <;> simp [toggleDocumentDetails, hs, h]
  · rintro ⟨h1, h2⟩
    simp [documentDetailsShown] at h1 h2
    rw [h1] at h2
    exact h (Option.some.inj h2)

/-- Witness for claim C6 at a concrete state with card 1 expanded: toggling
1 then 2 leaves exactly card 2 expanded. -/
theorem toggleDocumentDetails_spec_witness :
    (toggleDocumentDetails (toggleDocumentDetails
      { initialState with openDocumentId := some 1 } 1) 2).openDocumentId = some 2 :=
  (toggleDocumentDetails_spec { initialState with openDocumentId := some 1 } 1 2
    (by decide)).2.2.1

/-- Claim C7: across the states a render can observe during a `handleFile`
invocation (React commits batched updates only at `await` suspensions and at
handler return), the loading flag is false at the final commit, true at every
commit strictly before it, and some commit shows it true exactly when an
upload request was actually issued — so it is never observably true for a
file rejected by validation. -/
theorem isLoading_lifecycle (s : AppState) (name : String) (o : UploadOutcome) :
    (committedLoading s name o).getLast? = some false ∧
    (∀ b ∈ (committedLoading s name o).dropLast, b = true) ∧
    (true ∈ committedLoading s name o ↔ uploadRequestIssued name = true) := by
  cases h : uploadRequestIssued name <;> cases o <;>
    simp [committedLoading, handleFileScript, h, committedStates]

/-- Witness for claim C7 at a concrete successful upload of `a.txt`. -/
theorem isLoading_lifecycle_witness :
    (committedLoading initialState "a.txt"
      (UploadOutcome.success "ok" "a.txt" "Invoice")).getLast? = some false :=
  (isLoading_lifecycle initialState "a.txt" (UploadOutcome.success "ok" "a.txt" "Invoice")).1

/-- A Document record whose two confidence scores are equal, as the external
service may deliver. -/
def tieDocument : Document :=
  { id := 1, filename := "scan.pdf", predicted_category := "Invoice",
    confidence_scores := [("Invoice", 1/2), ("Other", 1/2)], upload_time := 0 }

/-- A Document record with the single confidence score 1/3, whose exact
percentage 100/3 is not representable in two decimals. -/
def thirdDocument : Document :=
  { id := 3, filename := "notes.txt", predicted_category := "Invoice",
    confidence_scores := [("Invoice", 1/3)], upload_time := 0 }

/-- Claim C8 counterexample: (a) for a record with two equal confidence
scores, the rendered entries are not strictly descending (the two rendered
percentages are equal), refuting strict descent; (b) for a record with the
single score 1/3, the rendered bar width is 3333/100 (the percentage rounded
to two decimals, as App.js line 187 applies `toFixed(2)` to the width as
well), which differs from the exact score times 100 = 100/3, refuting the
claim that the bar width is score times 100 percent. -/
theorem confidence_render_claim_cex :
    (¬ List.Pairwise (fun a b : String × ℚ × ℚ => a.2.1 > b.2.1)
      (renderConfidenceScores tieDocument)) ∧
    (renderConfidenceScores thirdDocument).map (fun e => e.2.1) = [(3333 : ℚ)/100] ∧
    (3333 : ℚ)/100 ≠ ((1/3 : ℚ) * 100) := by
  refine ⟨?_, ?_, by norm_num⟩
  · have hpw : List.Pairwise
        (fun a b : String × ℚ => (decide (b.2 ≤ a.2)) = true)
        tieDocument.confidence_scores := by
      simp [tieDocument]
    have hs : sortScoresDesc tieDocument.confidence_scores = tieDocument.confidence_scores :=
      List.mergeSort_of_sorted hpw
    intro hcontra
    rw [renderConfidenceScores, hs] at hcontra
    simp [tieDocument, lt_self_iff_false] at hcontra
  · have h3 : (⌊(3 : ℚ)⁻¹ * 100 * 100 + 2⁻¹⌋ : ℤ) = 3333 := by
      rw [Int.floor_eq_iff]
      norm_num
    simp [renderConfidenceScores, sortScoresDesc, thirdDocument, roundTo2, round_eq]
    rw [h3]
    norm_num

/-- Claim C8 (amended): the expanded entries are rendered sorted descending
(non-increasing) by score — strictly descending whenever the record's scores
are pairwise distinct — as a permutation of the record's entries, and each
rendered entry's bar width equals its displayed percentage (both
`(score * 100).toFixed(2)`). -/
theorem confidence_scores_sorted_desc (d : Document) :
    (sortScoresDesc d.confidence_scores).Perm d.confidence_scores ∧
    List.Pairwise (fun a b : String × ℚ => b.2 ≤ a.2) (sortScoresDesc d.confidence_scores) ∧
    (∀ e ∈ renderConfidenceScores d, e.2.1 = e.2.2) ∧
    ((d.confidence_scores.map Prod.snd).Nodup →
      List.Pairwise (fun a b : String × ℚ => a.2 > b.2) (sortScoresDesc d.confidence_scores)) := by
  have hperm : (sortScoresDesc d.confidence_scores).Perm d.confidence_scores :=
    List.mergeSort_perm _ _
  have hb : List.Pairwise
      (fun a b : String × ℚ => (decide (b.2 ≤ a.2)) = true)
      (d.confidence_scores.mergeSort (fun a b => decide (b.2 ≤ a.2))) :=
    @List.sorted_mergeSort (String × ℚ) (fun a b => decide (b.2 ≤ a.2))
      (fun a b c hab hbc =>
        decide_eq_true (le_trans (of_decide_eq_true hbc) (of_decide_eq_true hab)))
      (fun a b => by
        simp only [Bool.or_eq_true, decide_eq_true_eq]
        exact le_total b.2 a.2)
      d.confidence_scores
  have hsorted : List.Pairwise (fun a b : String × ℚ => b.2 ≤ a.2)
      (sortScoresDesc d.confidence_scores) :=
    hb.imp (fun hd => of_decide_eq_true hd)
  refine ⟨hperm, hsorted, ?_, ?_⟩
  · intro e he
    rw [renderConfidenceScores] at he
    obtain ⟨p, _, rfl⟩ := List.mem_map.mp he
    rfl
  · intro hnd
    have hnd' : ((sortScoresDesc d.confidence_scores).map Prod.snd).Nodup :=
      ((hperm.map Prod.snd).symm).nodup hnd
    have hne : List.Pairwise (fun a b : String × ℚ => a.2 ≠ b.2)
        (sortScoresDesc d.confidence_scores) :=
      List.pairwise_map.mp hnd'
    exact (hne.and hsorted).imp (fun hx => lt_of_le_of_ne hx.2 (Ne.symm hx.1))

/-- Witness for claim C8's amended theorem at a record with a single (hence
pairwise-distinct) confidence score. -/
theorem confidence_scores_sorted_desc_witness :
    List.Pairwise (fun a b : String × ℚ => a.2 > b.2) (sortScoresDesc [("Invoice", 1)]) :=
  (confidence_scores_sorted_desc
    { id := 2, filename := "a.txt", predicted_category := "Invoice",
      confidence_scores := [("Invoice", 1)], upload_time := 0 }).2.2.2 (by simp)

/-- Claim C9: the extension is computed as "." prepended to the substring
after the last "." of the filename, so a dot-free filename that is itself
"txt", "pdf" or "docx" passes validation and an upload request is issued. -/
theorem dotless_allowed_name_uploads (name : String)
    (h : name = "txt" ∨ name = "pdf" ∨ name = "docx") :
    name.toList.contains '.' = false ∧
    fileExtension name = "." ++ name ∧
    uploadRequestIssued name = true := by
  rcases h with rfl | rfl | rfl <;> decide

/-- Witness for claim C9 at the concrete dot-free filename "txt". -/
theorem dotless_allowed_name_uploads_witness :
    fileExtension "txt" = "." ++ "txt" ∧ uploadRequestIssued "txt" = true :=
  ⟨(dotless_allowed_name_uploads "txt" (Or.inl rfl)).2.1,
   (dotless_allowed_name_uploads "txt" (Or.inl rfl)).2.2⟩

/-- Claim C10: when an issued upload ends in the catch branch (transport or
JSON-parse failure), the message is exactly "Failed to upload file.", which
does not start with "Error", so the alert is rendered with the success
style. -/
theorem upload_catch_message_success_style (s : AppState) (name : String)
    (h : uploadRequestIssued name = true) :
    (handleFile s name UploadOutcome.fetchFailure).message = "Failed to upload file." ∧
    (handleFile s name UploadOutcome.jsonFailure).message = "Failed to upload file." ∧
    jsStartsWith "Failed to upload file." "Error" = false ∧
    alertClassName "Failed to upload file." = "alert alert-success" := by
  refine ⟨?_, ?_, by decide, by decide⟩ <;>
    simp [handleFile, handleFileScript, h, applyScript, uploadMessage]

/-- Witness for claim C10 at a transport failure uploading `a.txt`. -/
theorem upload_catch_message_success_style_witness :
    uploadRequestIssued "a.txt" = true ∧
    (handleFile initialState "a.txt" UploadOutcome.fetchFailure).message =
      "Failed to upload file." :=
  ⟨by decide, (upload_catch_message_success_style initialState "a.txt" (by decide)).1⟩
